import Mathlib

/-!
Shallow embedding of the jsa_proc job claiming and lifecycle state machine,
covering `jsa_proc/action/run.py` (job claiming and execution),
`scripts/state_machine_jac.py` (reconciliation poller driver),
`jsa_proc/web/flask_app.py` / `jsa_proc/web/error_summary.py`
(error-summary route) and `jsa_proc/cadc/rawingest.py` (raw ingestion).

Stateful Python code is embedded as explicit state passing over a `JSAProcDB`
value; fallible code returns `Except`.  External collaborators (the shared
file system, the `jsawrapdr` pipeline, the `jsaraw` subprocess) are supplied
as components of an environment record, so every definition is executable on
concrete inputs.
-/

namespace JsaProc

/-- Modelled from the spec: the job lifecycle state enumeration
(`jsa_proc.state.JSAProcState`, not among the analyzed sources).  The spec
names the states `WAITING`, `RUNNING`, `PROCESSED`, `ERROR` and a pre-fetch
queue phase; `queued` stands for the queue-phase states. -/
inductive JSAProcState
  | queued
  | waiting
  | running
  | processed
  | error
  deriving DecidableEq, Repr

/-- A single entry of a job's log: the state written with the entry and the
message describing the transition. -/
structure LogEntry where
  state : JSAProcState
  message : String
  deriving DecidableEq, Repr

/-- A row of the job table, with the fields used by `run.py`:
`id`, `state`, `location`, `mode`, `parameters`, `priority`,
`output_files` and the append-only `log`. -/
structure Job where
  id : Nat
  state : JSAProcState
  location : String
  mode : String
  parameters : String
  priority : Int
  output_files : Option (List String)
  log : List LogEntry
  deriving DecidableEq, Repr

/-- The shared relational job store: the job table as a list of rows. -/
structure JSAProcDB where
  jobs : List Job
  deriving DecidableEq, Repr

/-- Modelled from the spec: the `NoRowsError` raised by the store client
when a conditional update affects zero rows (`jsa_proc.error`, not among the
analyzed sources). -/
inductive DBError
  | noRows
  deriving DecidableEq, Repr

/-- Look up the row of the job with the given id. -/
def findJob (db : JSAProcDB) (job_id : Nat) : Option Job :=
  db.jobs.find? (fun j => j.id == job_id)

/-- Apply `g` to the row of the job with the given id, leaving other rows
unchanged. -/
def updateJob (db : JSAProcDB) (job_id : Nat) (g : Job → Job) : JSAProcDB :=
  ⟨db.jobs.map (fun j => if j.id == job_id then g j else j)⟩

/-- The row update performed by a state transition: set the new state and
append one log entry recording the message. -/
def applyTransition (newState : JSAProcState) (message : String) (j : Job) : Job :=
  { j with state := newState, log := j.log ++ [⟨newState, message⟩] }

/-- Modelled from the spec: the Claim Operator
`change_state(job_id, newstate, message, state_prev)` of the Job Store Client
(`jsa_proc.db`, not among the analyzed sources).  If and only if the job
exists and, when `state_prev` is given, its current state equals
`state_prev`, set the new state and append the message to the log; otherwise
change nothing and report zero rows affected (`NoRowsError`).  When
`state_prev` is `none` the transition is unconditional (forced mode). -/
def change_state (db : JSAProcDB) (job_id : Nat) (newState : JSAProcState)
    (message : String) (state_prev : Option JSAProcState) :
    Except DBError JSAProcDB :=
  match findJob db job_id with
  | none => .error .noRows
  | some j =>
      match state_prev with
      | none => .ok (updateJob db job_id (applyTransition newState message))
      | some p =>
          if j.state = p then
            .ok (updateJob db job_id (applyTransition newState message))
          else
            .error .noRows

/-- Modelled from the spec: `get_job(id)` of the Job Store Client; raises a
no-rows condition when the job does not exist. -/
def get_job (db : JSAProcDB) (job_id : Nat) : Except DBError Job :=
  match findJob db job_id with
  | none => .error .noRows
  | some j => .ok j

/-- Modelled from the spec: `set_output_files(id, files)` of the Job Store
Client; records the artifact names on the job's row. -/
def set_output_files (db : JSAProcDB) (job_id : Nat) (files : List String) :
    Except DBError JSAProcDB :=
  match findJob db job_id with
  | none => .error .noRows
  | some _ => .ok (updateJob db job_id (fun j => { j with output_files := some files }))

/-- Stable insertion of a job into a list sorted by decreasing priority. -/
def insertByPriority (j : Job) : List Job → List Job
  | [] => [j]
  | k :: ks =>
      if j.priority ≥ k.priority then j :: k :: ks
      else k :: insertByPriority j ks

/-- Stable sort by decreasing priority (equal priorities keep their order). -/
def sortByPriority : List Job → List Job
  | [] => []
  | j :: js => insertByPriority j (sortByPriority js)

/-- Modelled from the spec: `find_jobs(state, location, prioritize, number,
sort)` of the Job Store Client: filter by state and location, order by
priority descending when prioritized, and take at most `number` rows.
Returns an empty sequence (not an error) when no eligible job exists. -/
def find_jobs (db : JSAProcDB) (state : JSAProcState) (location : String)
    (prioritize : Bool) (number : Nat) : List Job :=
  let eligible := db.jobs.filter (fun j => j.state == state && j.location == location)
  let ordered := if prioritize then sortByPriority eligible else eligible
  ordered.take number

/-- Severity levels of the process diagnostic logger (Python `logging`). -/
inductive LogLevel
  | debug
  | info
  | warning
  | error
  deriving DecidableEq, Repr

/-- State of the job with the given id, if it exists. -/
def jobState (db : JSAProcDB) (job_id : Nat) : Option JSAProcState :=
  (findJob db job_id).map (·.state)

/-- Output files recorded for the job with the given id, if it exists. -/
def jobOutputFiles (db : JSAProcDB) (job_id : Nat) : Option (Option (List String)) :=
  (findJob db job_id).map (·.output_files)

/-- Log of the job with the given id, if it exists. -/
def jobLog (db : JSAProcDB) (job_id : Nat) : Option (List LogEntry) :=
  (findJob db job_id).map (·.log)

/-- Store-level events emitted during one execution of `run_a_job`, in
program order: conditional state transitions (with their outcome), the
recording of output files, and the invocation of the external pipeline. -/
inductive StoreEvent
  | changeStateEvt (job_id : Nat) (newState : JSAProcState)
      (state_prev : Option JSAProcState) (success : Bool)
  | setOutputFilesEvt (job_id : Nat) (files : List String)
  | pipelineRunEvt (job_id : Nat)
  deriving DecidableEq, Repr

/-- Environment of `run_a_job`: the worker's hostname, the shared file
system (input directories and presence of the resolved input manifest), the
external `jsawrapdr` pipeline (modelled from the spec: given the input
manifest, mode and parameters it synchronously returns its log file on
success or signals failure), and `get_output_files` (the artifacts found in
the job's output directory, `jsa_proc.action.datafile_handling`, not among
the analyzed sources). -/
structure RunEnv where
  hostname : String
  inputDir : Nat → String
  inputFileListExists : Nat → Bool
  pipelineResult : Nat → String → String → String → Except String String
  outputFilesFor : Nat → List String

/-- The path of the job's resolved input manifest:
`os.path.join(get_input_dir(job_id), 'input_files_job.lis')`. -/
def inputFileList (env : RunEnv) (job_id : Nat) : String :=
  env.inputDir job_id ++ "/input_files_job.lis"

/-- The message of the claim transition:
`'Job is about to be run on host {0}'.format(gethostname())`. -/
def claimMessage (env : RunEnv) : String :=
  "Job is about to be run on host " ++ env.hostname

/-- The `logger.error` message emitted when the claim fails. -/
def conflictMessage (job_id : Nat) : String :=
  "Job " ++ toString job_id ++ " cannot be run because it is not waiting"

/-- Result of one execution of `run_a_job`: the store after the run, the
value returned to the caller (`none` embeds Python's `None`), the records
emitted on the process diagnostic logger, and the store events in program
order. -/
structure RunOutcome where
  db : JSAProcDB
  result : Option Nat
  records : List (LogLevel × String)
  events : List StoreEvent
  deriving Repr

/-- An exception escaping the body of `run_a_job`: its message, the store at
the point it was raised, and the records and store events emitted so far. -/
structure RunFailure where
  message : String
  db : JSAProcDB
  records : List (LogLevel × String)
  events : List StoreEvent
  deriving Repr

/-- The body of `run_a_job` (run.py lines 82-137), without the
`ErrorDecorator`: claim the job by a conditional transition to `RUNNING`
(expected prior state `WAITING`, or unconditional when `force`); on
`NoRowsError` log at the error level and return `None`; then require the
input manifest, read mode and parameters, run the pipeline, store the output
files, transition to `PROCESSED` expecting `RUNNING`, and return the job
id.  Exceptions other than the claim conflict are returned as `RunFailure`
for the decorator. -/
def run_a_job_core (env : RunEnv) (db : JSAProcDB) (job_id : Nat)
    (force : Bool) : Except RunFailure RunOutcome :=
  let recs0 := [(LogLevel.info, "About to run job " ++ toString job_id)]
  let state_prev := if force then none else some JSAProcState.waiting
  match change_state db job_id JSAProcState.running (claimMessage env) state_prev with
  | .error _ =>
      -- NoRowsError: trapped so that the ErrorDecorator does not put the
      -- job into the ERROR state.
      .ok ⟨db, none,
           recs0 ++ [(LogLevel.error, conflictMessage job_id)],
           [.changeStateEvt job_id JSAProcState.running state_prev false]⟩
  | .ok db1 =>
      let evs1 := [StoreEvent.changeStateEvt job_id JSAProcState.running state_prev true]
      if env.inputFileListExists job_id = false then
        .error ⟨"Input file list " ++ inputFileList env job_id
                  ++ " not found for job_id " ++ toString job_id,
                db1, recs0, evs1⟩
      else
        match get_job db1 job_id with
        | .error _ => .error ⟨"no row for job", db1, recs0, evs1⟩
        | .ok job =>
            let recs1 := recs0 ++ [(LogLevel.debug,
              "Launching jsawrapdr: mode=" ++ job.mode
                ++ ", parameters=" ++ job.parameters)]
            match env.pipelineResult job_id (inputFileList env job_id)
                job.mode job.parameters with
            | .error e =>
                .error ⟨e, db1, recs1, evs1 ++ [.pipelineRunEvt job_id]⟩
            | .ok _ =>
                let files := env.outputFilesFor job_id
                let evs2 := evs1 ++ [StoreEvent.pipelineRunEvt job_id,
                                     StoreEvent.setOutputFilesEvt job_id files]
                match set_output_files db1 job_id files with
                | .error _ =>
                    .error ⟨"no row for job", db1, recs1,
                            evs1 ++ [.pipelineRunEvt job_id]⟩
                | .ok db2 =>
                    match change_state db2 job_id JSAProcState.processed
                        "Job has been sucessfully processed"
                        (some JSAProcState.running) with
                    | .error _ =>
                        .error ⟨"no row in expected state", db2, recs1,
                                evs2 ++ [.changeStateEvt job_id
                                  JSAProcState.processed
                                  (some JSAProcState.running) false]⟩
                    | .ok db3 =>
                        .ok ⟨db3, some job_id,
                             recs1 ++ [(LogLevel.info,
                               "Done running job " ++ toString job_id)],
                             evs2 ++ [.changeStateEvt job_id
                               JSAProcState.processed
                               (some JSAProcState.running) true]⟩

/-- Modelled from the spec: the Failure Containment Wrapper
(`jsa_proc.action.decorators.ErrorDecorator`, not among the analyzed
sources).  On success it passes the result through unchanged; on any
exception reaching it, it records the failure's description into the job's
log, issues an unconditional transition of the job to `ERROR`, and does not
re-raise: the caller receives `None`. -/
def run_a_job (env : RunEnv) (db : JSAProcDB) (job_id : Nat) (force : Bool) :
    RunOutcome :=
  match run_a_job_core env db job_id force with
  | .ok r => r
  | .error f =>
      match change_state f.db job_id JSAProcState.error
          ("Error: " ++ f.message) none with
      | .ok db2 =>
          ⟨db2, none, f.records,
           f.events ++ [.changeStateEvt job_id JSAProcState.error none true]⟩
      | .error _ =>
          ⟨f.db, none, f.records,
           f.events ++ [.changeStateEvt job_id JSAProcState.error none false]⟩

/-- Python truthiness of the optional `job_id` argument of `run_job`:
`not job_id` is true for `None` and for `0`. -/
def jobIdFalsy : Option Nat → Bool
  | none => true
  | some n => n == 0

/-- `run_job` (run.py lines 31-64): when no job id is given, reset `force`
to `False`, select the highest-priority `WAITING` job at location `JAC`, and
log a warning and return when there is none; otherwise run the selected (or
given) job through `run_a_job`.  `run_job` itself returns `None`. -/
def run_job (env : RunEnv) (db : JSAProcDB) (job_id : Option Nat)
    (force : Bool) : RunOutcome :=
  if jobIdFalsy job_id then
    match find_jobs db JSAProcState.waiting "JAC" true 1 with
    | [] =>
        ⟨db, none,
         [(LogLevel.debug, "Looking for a job to run"),
          (LogLevel.warning, "Did not find a job to run!")], []⟩
    | j :: _ =>
        let r := run_a_job env db j.id false
        { r with result := none,
                 records := (LogLevel.debug, "Looking for a job to run") :: r.records }
  else
    match job_id with
    | some i =>
        let r := run_a_job env db i force
        { r with result := none }
    | none => ⟨db, none, [], []⟩

/-- The exit-code logic of `scripts/state_machine_jac.py`: after
`status = sm.poll_jac_jobs()`, the script runs `sys.exit(1)` when
`not status`, and otherwise falls off the end of the module, which exits
with code 0.  `poll_jac_jobs` itself (`jsa_proc.statemachine`, not among the
analyzed sources) returns a boolean per the spec; its value is the input
here. -/
def state_machine_jac_exit (status : Bool) : Nat :=
  if !status then 1 else 0

/-- The parameter list of `prepare_error_summary` as defined in
`jsa_proc/web/error_summary.py`: `def prepare_error_summary(db)`. -/
def prepare_error_summary_params : List String := ["db"]

/-- The keyword arguments the `/error_summary/` route handler in
`jsa_proc/web/flask_app.py` passes to `prepare_error_summary`, after the
one positional argument `db`. -/
def error_summary_call_kwargs : List String :=
  ["filtering", "chosentask", "extrafilter"]

/-- Python call binding for a function with a fixed parameter list and no
defaults, varargs or kwargs: `npos` positional arguments bind the first
`npos` parameters, every keyword argument must name a distinct remaining
parameter, and every remaining parameter must be supplied.  When this
returns `false` the call raises `TypeError`. -/
def pythonCallOk (params : List String) (npos : Nat) (kwargs : List String) :
    Bool :=
  let rest := params.drop npos
  npos ≤ params.length
    && kwargs.all (fun k => rest.contains k)
    && kwargs.Nodup
    && rest.all (fun p => kwargs.contains p)

/-- The template context built by `prepare_error_summary`: a title and, for
each location `JAC` and `CADC` in order, the mapping of job ids to error
logs returned by `db.find_errors_logs(location=l)`. -/
structure ErrorSummary where
  title : String
  job_summary_dict : List (String × List (Nat × List String))
  deriving DecidableEq, Repr

/-- The body of `prepare_error_summary(db)` (error_summary.py lines 24-43),
with `db.find_errors_logs` (excluded store layer) supplied as a function. -/
def prepare_error_summary
    (find_errors_logs : String → List (Nat × List String)) : ErrorSummary :=
  { title := "Errors in JSA Processing Jobs",
    job_summary_dict := ["JAC", "CADC"].map (fun l => (l, find_errors_logs l)) }

/-- The `/error_summary/` route handler (flask_app.py lines 171-179): it
calls `prepare_error_summary(db, filtering=..., chosentask=...,
extrafilter=...)`.  Per Python call semantics the call is first bound
against the callee's parameter list; when binding fails the handler raises
`TypeError` and no summary is produced. -/
def error_summary_route
    (find_errors_logs : String → List (Nat × List String)) :
    Except String ErrorSummary :=
  if pythonCallOk prepare_error_summary_params 1 error_summary_call_kwargs then
    .ok (prepare_error_summary find_errors_logs)
  else
    .error "TypeError: unexpected keyword argument"

/-- Match the tail of the regular expression `_(\d{8})T` against the
characters following an underscore: eight digits then `T`; on success
return the eight digits. -/
def matchDateAfterUnderscore : List Char → Option String
  | c1 :: c2 :: c3 :: c4 :: c5 :: c6 :: c7 :: c8 :: t :: _ =>
      if ([c1, c2, c3, c4, c5, c6, c7, c8].all Char.isDigit) && t == 'T' then
        some (String.mk [c1, c2, c3, c4, c5, c6, c7, c8])
      else
        none
  | _ => none

/-- Search for the leftmost match of `obsid_date = re.compile('_(\d{8})T')`
in a character list, returning group 1 (the date). -/
def obsidDateSearchAux : List Char → Option String
  | [] => none
  | c :: rest =>
      if c == '_' then
        match matchDateAfterUnderscore rest with
        | some d => some d
        | none => obsidDateSearchAux rest
      else
        obsidDateSearchAux rest

/-- `obsid_date.search(obsid)` of rawingest.py: the date group of the
leftmost `_(\d{8})T` match, if any. -/
def obsidDateSearch (obsid : String) : Option String :=
  obsidDateSearchAux obsid.data

/-- File-system events of `ingest_raw_observation`, in program order. -/
inductive IngestEvent
  | makeScratchDir (dir : String)
  | makeLogDirs (dir : String)
  | runJsaraw (obsid : String) (logFile : String) (exitCode : Nat)
  | removeScratchDir (dir : String)
  deriving DecidableEq, Repr

/-- Environment of `ingest_raw_observation`: the scratch directory created
by `make_misc_scratch_dir('rawingest')`, the root log directory from
`get_misc_log_dir('rawingest')`, whether a log directory already exists, and
the exit status of the external `jsaraw` command for a given obsid. -/
structure IngestEnv where
  scratch_dir : String
  log_root : String
  logDirExists : String → Bool
  jsarawExit : String → Nat

/-- `ingest_raw_observation(obsid, dry_run)` (rawingest.py lines 33-98):
parse the date from the obsid, raising `JSAProcError` when the `_(\d{8})T`
pattern is absent (before any file-system side effect); otherwise (when not
a dry run) create the scratch directory, create the log directory if
missing, run `jsaraw` with `subprocess.check_call` — catching
`CalledProcessError` and logging it instead of re-raising — and finally
delete the scratch directory.  Returns the events performed and the logger
records emitted; an error carries the events performed before the raise. -/
def ingest_raw_observation (env : IngestEnv) (obsid : String)
    (dry_run : Bool) :
    Except (String × List IngestEvent)
      (List IngestEvent × List (LogLevel × String)) :=
  match obsidDateSearch obsid with
  | none => .error ("Cannot find date in OBSID " ++ obsid, [])
  | some date =>
      let year := (date.toList.take 4).asString
      let month := ((date.toList.drop 4).take 2).asString
      let day := (date.toList.drop 6).asString
      if dry_run then
        .ok ([], [(LogLevel.info, "Would have run: jsaraw (DRY RUN)")])
      else
        let log_dir := env.log_root ++ "/" ++ year ++ "/" ++ month ++ "/" ++ day
        let log_file := log_dir ++ "/" ++ obsid ++ ".log"
        let exitCode := env.jsarawExit obsid
        let events :=
          [IngestEvent.makeScratchDir env.scratch_dir]
            ++ (if env.logDirExists log_dir then []
                else [IngestEvent.makeLogDirs log_dir])
            ++ [IngestEvent.runJsaraw obsid (log_file ++ ".full") exitCode,
                IngestEvent.removeScratchDir env.scratch_dir]
        let records :=
          if exitCode ≠ 0 then
            [(LogLevel.error, "Error during CAOM-2 ingestion")]
          else []
        .ok (events, records)

/-- Does every recording of output files occur after a successful
transition to `PROCESSED`?  Scans the event list: a `setOutputFilesEvt`
seen before any successful `PROCESSED` transition falsifies it. -/
def outputFilesOnlyAfterProcessed : List StoreEvent → Bool
  | [] => true
  | .setOutputFilesEvt _ _ :: _ => false
  | .changeStateEvt _ .processed _ true :: _ => true
  | _ :: rest => outputFilesOnlyAfterProcessed rest

/-- Test fixture: a `WAITING` job at location `JAC`. -/
def jWaiting : Job :=
  { id := 1, state := .waiting, location := "JAC", mode := "obs",
    parameters := "-recpar x", priority := 2, output_files := none, log := [] }

/-- Test fixture: the same job already in the `PROCESSED` state. -/
def jProcessed : Job := { jWaiting with state := .processed }

/-- Test fixture: a store holding the single `WAITING` job. -/
def dbWaiting : JSAProcDB := ⟨[jWaiting]⟩

/-- Test fixture: a store holding the single `PROCESSED` job. -/
def dbProcessed : JSAProcDB := ⟨[jProcessed]⟩

/-- Test fixture: an environment where the manifest exists and the
pipeline succeeds, producing one artifact. -/
def envOK : RunEnv :=
  { hostname := "host1",
    inputDir := fun i => "/in/" ++ toString i,
    inputFileListExists := fun _ => true,
    pipelineResult := fun _ _ _ _ => .ok "log.html",
    outputFilesFor := fun _ => ["f1.fits"] }

/-- Test fixture: as `envOK` but the input manifest is missing. -/
def envNoInput : RunEnv := { envOK with inputFileListExists := fun _ => false }

/-- Test fixture: an ingestion environment whose `jsaraw` command exits
with status 1 for every obsid. -/
def ingestEnvFail : IngestEnv :=
  ⟨"/scratch/rawingest", "/log/rawingest", fun _ => false, fun _ => 1⟩

/-- Test fixture: the waiting job after the successful claim transition. -/
def jClaimed : Job :=
  applyTransition JSAProcState.running (claimMessage envNoInput) jWaiting

/-- Test fixture: the exception escaping `run_a_job`'s body when the input
manifest of job 1 is missing, as raised after the successful claim. -/
def fMissingInput : RunFailure :=
  ⟨"Input file list " ++ inputFileList envNoInput 1
     ++ " not found for job_id " ++ toString 1,
   updateJob dbWaiting 1
     (applyTransition JSAProcState.running (claimMessage envNoInput)),
   [(LogLevel.info, "About to run job " ++ toString 1)],
   [StoreEvent.changeStateEvt 1 JSAProcState.running
     (some JSAProcState.waiting) true]⟩

theorem find?_map_update (l : List Job) (id : Nat) (g : Job → Job)
    (hg : ∀ k, (g k).id = k.id) (j : Job)
    (h : l.find? (fun k => k.id == id) = some j) :
    (l.map (fun k => if k.id == id then g k else k)).find?
      (fun k => k.id == id) = some (g j) := by
  induction l with
  | nil => simp at h
  | cons a tl ih =>
      simp only [List.find?_cons] at h
      simp only [List.map_cons]
      by_cases ha : (a.id == id) = true
      · simp only [ha] at h
        injection h with h
        subst h
        simp [List.find?_cons, ha, hg a]
      · have ha' : (a.id == id) = false := by
          cases hb : (a.id == id) with
          | true => exact absurd hb ha
          | false => rfl
        simp only [ha'] at h
        simp only [ha', List.find?_cons, hg a, if_false, Bool.false_eq_true]
        exact ih h

theorem findJob_updateJob (db : JSAProcDB) (id : Nat) (g : Job → Job)
    (hg : ∀ k, (g k).id = k.id) (j : Job) (h : findJob db id = some j) :
    findJob (updateJob db id g) id = some (g j) :=
  find?_map_update db.jobs id g hg j h

theorem change_state_ok (db : JSAProcDB) (id : Nat) (ns : JSAProcState)
    (msg : String) (p : JSAProcState) (j : Job)
    (h : findJob db id = some j) (hp : j.state = p) :
    change_state db id ns msg (some p) =
      .ok (updateJob db id (applyTransition ns msg)) := by
  unfold change_state
  rw [h]
  simp [hp]

theorem change_state_forced (db : JSAProcDB) (id : Nat) (ns : JSAProcState)
    (msg : String) (j : Job) (h : findJob db id = some j) :
    change_state db id ns msg none =
      .ok (updateJob db id (applyTransition ns msg)) := by
  unfold change_state
  rw [h]

theorem change_state_conflict (db : JSAProcDB) (id : Nat) (ns : JSAProcState)
    (msg : String) (p : JSAProcState) (j : Job)
    (h : findJob db id = some j) (hp : j.state ≠ p) :
    change_state db id ns msg (some p) = .error .noRows := by
  unfold change_state
  rw [h]
  simp [hp]

theorem get_job_of_findJob (db : JSAProcDB) (id : Nat) (j : Job)
    (h : findJob db id = some j) : get_job db id = .ok j := by
  unfold get_job
  rw [h]

theorem set_output_files_of_findJob (db : JSAProcDB) (id : Nat)
    (files : List String) (j : Job) (h : findJob db id = some j) :
    set_output_files db id files =
      .ok (updateJob db id (fun k => { k with output_files := some files })) := by
  unfold set_output_files
  rw [h]

/-- C1 (amended): when the claim transition to `RUNNING` fails because the
job is not in the expected `WAITING` state, `run_a_job` logs the conflict at
the ERROR level of the diagnostic logger (not the informational/warning
level) and returns without modifying the job; the conflict never reaches the
failure-containment wrapper and no `ERROR` transition is performed. -/
theorem claim_conflict_contained (env : RunEnv) (db : JSAProcDB) (job_id : Nat)
    (h : change_state db job_id JSAProcState.running (claimMessage env)
      (some JSAProcState.waiting) = .error DBError.noRows) :
    (run_a_job env db job_id false).db = db ∧
    (run_a_job env db job_id false).result = none ∧
    (run_a_job env db job_id false).records =
      [(LogLevel.info, "About to run job " ++ toString job_id),
       (LogLevel.error, conflictMessage job_id)] ∧
    (run_a_job env db job_id false).events =
      [.changeStateEvt job_id JSAProcState.running
        (some JSAProcState.waiting) false] := by
  unfold run_a_job run_a_job_core
  simp [h]

/-- Witness for `claim_conflict_contained` at a concrete store whose only
job is already `PROCESSED`. -/
theorem claim_conflict_contained_witness :
    (run_a_job envOK dbProcessed 1 false).db = dbProcessed ∧
    (run_a_job envOK dbProcessed 1 false).result = none ∧
    (run_a_job envOK dbProcessed 1 false).records =
      [(LogLevel.info, "About to run job " ++ toString 1),
       (LogLevel.error, conflictMessage 1)] ∧
    (run_a_job envOK dbProcessed 1 false).events =
      [.changeStateEvt 1 JSAProcState.running
        (some JSAProcState.waiting) false] :=
  claim_conflict_contained envOK dbProcessed 1 (by rfl)

/-- C1 counterexample: at a concrete input on the conflict path, the
conflict is logged, but at the ERROR level — no record carrying the conflict
message has the informational or warning level, refuting the claimed log
level. -/
theorem claim_conflict_level_counterexample :
    ((run_a_job envOK dbProcessed 1 false).records.any
      (fun r => r.2 == conflictMessage 1 &&
        (r.1 == LogLevel.info || r.1 == LogLevel.warning))) = false ∧
    ((run_a_job envOK dbProcessed 1 false).records.any
      (fun r => r.2 == conflictMessage 1 && r.1 == LogLevel.error)) = true := by
  constructor
  · rfl
  · rfl

/-- C2 (amended): in every execution of `run_a_job` that completes
successfully, the output files are stored immediately BEFORE the
`RUNNING`→`PROCESSED` transition, not after it: the store events are, in
order, the claim, the pipeline invocation, `set_output_files`, and then the
successful `PROCESSED` transition.  Consequently, should that final
transition fail, the job would end in `ERROR` with `output_files` already
set. -/
theorem output_files_set_before_processed (env : RunEnv) (db : JSAProcDB)
    (job_id : Nat) (force : Bool) (out : RunOutcome)
    (h : run_a_job_core env db job_id force = .ok out)
    (hres : out.result = some job_id) :
    out.events =
      [.changeStateEvt job_id JSAProcState.running
         (if force then none else some JSAProcState.waiting) true,
       .pipelineRunEvt job_id,
       .setOutputFilesEvt job_id (env.outputFilesFor job_id),
       .changeStateEvt job_id JSAProcState.processed
         (some JSAProcState.running) true] := by
  simp only [run_a_job_core] at h
  split at h
  · injection h with h
    subst h
    simp at hres
  · split at h
    · injection h
    · split at h
      · injection h
      · split at h
        · injection h
        · split at h
          · injection h
          · split at h
            · injection h
            · injection h with h
              subst h
              rfl

/-- Witness for `output_files_set_before_processed` at a concrete
successful run. -/
theorem output_files_set_before_processed_witness :
    (run_a_job envOK dbWaiting 1 false).events =
      [.changeStateEvt 1 JSAProcState.running
         (if false then none else some JSAProcState.waiting) true,
       .pipelineRunEvt 1,
       .setOutputFilesEvt 1 (envOK.outputFilesFor 1),
       .changeStateEvt 1 JSAProcState.processed
         (some JSAProcState.running) true] :=
  output_files_set_before_processed envOK dbWaiting 1 false
    (run_a_job envOK dbWaiting 1 false) (by rfl) (by rfl)

/-- C2 counterexample: at a concrete successful run, the recording of
output files occurs BEFORE the successful `RUNNING`→`PROCESSED` transition
in the store-event order, refuting "populated only after the successful
transition has been performed". -/
theorem output_files_only_after_processed_counterexample :
    outputFilesOnlyAfterProcessed
      (run_a_job envOK dbWaiting 1 false).events = false := by
  rfl

/-- C3: every exception escaping `run_a_job`'s body after the claim (the
job then exists in the store) is absorbed by the failure-containment
wrapper: the caller receives `None` (no re-raise — `run_a_job` is a total
function), the job is transitioned to `ERROR`, and a non-empty log entry
describing the failure is appended to the job's log. -/
theorem failures_contained (env : RunEnv) (db : JSAProcDB) (job_id : Nat)
    (force : Bool) (f : RunFailure) (j : Job)
    (h : run_a_job_core env db job_id force = .error f)
    (hj : findJob f.db job_id = some j) :
    (run_a_job env db job_id force).result = none ∧
    jobState (run_a_job env db job_id force).db job_id =
      some JSAProcState.error ∧
    jobLog (run_a_job env db job_id force).db job_id =
      some (j.log ++ [⟨JSAProcState.error, "Error: " ++ f.message⟩]) ∧
    0 < ("Error: " ++ f.message).length := by
  have hcs := change_state_forced f.db job_id JSAProcState.error
    ("Error: " ++ f.message) j hj
  have hfind := findJob_updateJob f.db job_id
    (applyTransition JSAProcState.error ("Error: " ++ f.message))
    (fun k => rfl) j hj
  unfold run_a_job
  rw [h]
  simp only [hcs]
  refine ⟨trivial, ?_, ?_, ?_⟩
  · simp [jobState, hfind, applyTransition]
  · simp [jobLog, hfind, applyTransition]
  · rw [String.length_append]
    have h7 : "Error: ".length = 7 := rfl
    omega

/-- Witness for `failures_contained` at the concrete missing-manifest
failure of job 1. -/
theorem failures_contained_witness :
    (run_a_job envNoInput dbWaiting 1 false).result = none ∧
    jobState (run_a_job envNoInput dbWaiting 1 false).db 1 =
      some JSAProcState.error ∧
    jobLog (run_a_job envNoInput dbWaiting 1 false).db 1 =
      some (jClaimed.log ++
        [⟨JSAProcState.error, "Error: " ++ fMissingInput.message⟩]) ∧
    0 < ("Error: " ++ fMissingInput.message).length :=
  failures_contained envNoInput dbWaiting 1 false fMissingInput jClaimed
    (by rfl) (by rfl)

/-- C4: claiming a `WAITING` job whose input manifest is absent raises an
error naming the missing manifest before the external pipeline is invoked
(the store events contain no pipeline invocation); the job ends in `ERROR`
and its `output_files` are left unchanged (so never set). -/
theorem missing_manifest_contained (env : RunEnv) (db : JSAProcDB)
    (job_id : Nat) (j : Job)
    (hj : findJob db job_id = some j)
    (hw : j.state = JSAProcState.waiting)
    (hin : env.inputFileListExists job_id = false) :
    (run_a_job env db job_id false).result = none ∧
    jobState (run_a_job env db job_id false).db job_id =
      some JSAProcState.error ∧
    jobOutputFiles (run_a_job env db job_id false).db job_id =
      some j.output_files ∧
    (run_a_job env db job_id false).events =
      [.changeStateEvt job_id JSAProcState.running
         (some JSAProcState.waiting) true,
       .changeStateEvt job_id JSAProcState.error none true] ∧
    jobLog (run_a_job env db job_id false).db job_id =
      some (j.log ++ [⟨JSAProcState.running, claimMessage env⟩]
        ++ [⟨JSAProcState.error,
             "Error: " ++ ("Input file list " ++ inputFileList env job_id
               ++ " not found for job_id " ++ toString job_id)⟩]) := by
  have h1 := change_state_ok db job_id JSAProcState.running
    (claimMessage env) JSAProcState.waiting j hj hw
  have hj1 := findJob_updateJob db job_id
    (applyTransition JSAProcState.running (claimMessage env))
    (fun k => rfl) j hj
  have h2 := change_state_forced
    (updateJob db job_id
      (applyTransition JSAProcState.running (claimMessage env)))
    job_id JSAProcState.error
    ("Error: " ++ ("Input file list " ++ inputFileList env job_id
       ++ " not found for job_id " ++ toString job_id))
    (applyTransition JSAProcState.running (claimMessage env) j) hj1
  have hj2 := findJob_updateJob
    (updateJob db job_id
      (applyTransition JSAProcState.running (claimMessage env)))
    job_id
    (applyTransition JSAProcState.error
      ("Error: " ++ ("Input file list " ++ inputFileList env job_id
         ++ " not found for job_id " ++ toString job_id)))
    (fun k => rfl)
    (applyTransition JSAProcState.running (claimMessage env) j) hj1
  unfold run_a_job
  simp only [run_a_job_core, Bool.false_eq_true, if_false, h1, hin]
  refine ⟨?_, ?_, ?_, ?_, ?_⟩ <;>
    simp [h2, jobState, jobOutputFiles, jobLog, hj2, applyTransition]

/-- Witness for `missing_manifest_contained` at the concrete store with
job 1 `WAITING` and its manifest missing. -/
theorem missing_manifest_contained_witness :
    (run_a_job envNoInput dbWaiting 1 false).result = none ∧
    jobState (run_a_job envNoInput dbWaiting 1 false).db 1 =
      some JSAProcState.error ∧
    jobOutputFiles (run_a_job envNoInput dbWaiting 1 false).db 1 =
      some jWaiting.output_files ∧
    (run_a_job envNoInput dbWaiting 1 false).events =
      [.changeStateEvt 1 JSAProcState.running
         (some JSAProcState.waiting) true,
       .changeStateEvt 1 JSAProcState.error none true] ∧
    jobLog (run_a_job envNoInput dbWaiting 1 false).db 1 =
      some (jWaiting.log ++ [⟨JSAProcState.running, claimMessage envNoInput⟩]
        ++ [⟨JSAProcState.error,
             "Error: " ++ ("Input file list " ++ inputFileList envNoInput 1
               ++ " not found for job_id " ++ toString 1)⟩]) :=
  missing_manifest_contained envNoInput dbWaiting 1 jWaiting
    (by rfl) (by rfl) (by rfl)

/-- C5: when the claimed job's manifest exists and the pipeline succeeds,
`run_a_job` stores the produced artifacts as the job's `output_files`, then
transitions the job from `RUNNING` to `PROCESSED` with a success message
while asserting the expected prior state `RUNNING` (visible in the final
store event), and returns the job id to its caller. -/
theorem success_path (env : RunEnv) (db : JSAProcDB) (job_id : Nat)
    (j : Job) (plog : String)
    (hj : findJob db job_id = some j)
    (hw : j.state = JSAProcState.waiting)
    (hin : env.inputFileListExists job_id = true)
    (hp : env.pipelineResult job_id (inputFileList env job_id)
      j.mode j.parameters = .ok plog) :
    (run_a_job env db job_id false).result = some job_id ∧
    jobState (run_a_job env db job_id false).db job_id =
      some JSAProcState.processed ∧
    jobOutputFiles (run_a_job env db job_id false).db job_id =
      some (some (env.outputFilesFor job_id)) ∧
    (run_a_job env db job_id false).events =
      [.changeStateEvt job_id JSAProcState.running
         (some JSAProcState.waiting) true,
       .pipelineRunEvt job_id,
       .setOutputFilesEvt job_id (env.outputFilesFor job_id),
       .changeStateEvt job_id JSAProcState.processed
         (some JSAProcState.running) true] := by
  have h1 := change_state_ok db job_id JSAProcState.running
    (claimMessage env) JSAProcState.waiting j hj hw
  have hj1 := findJob_updateJob db job_id
    (applyTransition JSAProcState.running (claimMessage env))
    (fun k => rfl) j hj
  have h2 := get_job_of_findJob
    (updateJob db job_id
      (applyTransition JSAProcState.running (claimMessage env)))
    job_id (applyTransition JSAProcState.running (claimMessage env) j) hj1
  have h4 := set_output_files_of_findJob
    (updateJob db job_id
      (applyTransition JSAProcState.running (claimMessage env)))
    job_id (env.outputFilesFor job_id)
    (applyTransition JSAProcState.running (claimMessage env) j) hj1
  have hj2 := findJob_updateJob
    (updateJob db job_id
      (applyTransition JSAProcState.running (claimMessage env)))
    job_id (fun k => { k with output_files := some (env.outputFilesFor job_id) })
    (fun k => rfl)
    (applyTransition JSAProcState.running (claimMessage env) j) hj1
  have h5 := change_state_ok
    (updateJob
      (updateJob db job_id
        (applyTransition JSAProcState.running (claimMessage env)))
      job_id
      (fun k => { k with output_files := some (env.outputFilesFor job_id) }))
    job_id JSAProcState.processed "Job has been sucessfully processed"
    JSAProcState.running
    { applyTransition JSAProcState.running (claimMessage env) j with
        output_files := some (env.outputFilesFor job_id) } hj2 rfl
  have hj3 := findJob_updateJob
    (updateJob
      (updateJob db job_id
        (applyTransition JSAProcState.running (claimMessage env)))
      job_id
      (fun k => { k with output_files := some (env.outputFilesFor job_id) }))
    job_id
    (applyTransition JSAProcState.processed
      "Job has been sucessfully processed")
    (fun k => rfl)
    { applyTransition JSAProcState.running (claimMessage env) j with
        output_files := some (env.outputFilesFor job_id) } hj2
  unfold run_a_job
  simp only [run_a_job_core, Bool.false_eq_true, if_false, h1, hin]
  refine ⟨?_, ?_, ?_, ?_⟩ <;>
    simp [h2, hp, h4, h5, jobState, jobOutputFiles, hj3, applyTransition]

/-- Witness for `success_path` at the concrete store with job 1 `WAITING`
and a succeeding pipeline. -/
theorem success_path_witness :
    (run_a_job envOK dbWaiting 1 false).result = some 1 ∧
    jobState (run_a_job envOK dbWaiting 1 false).db 1 =
      some JSAProcState.processed ∧
    jobOutputFiles (run_a_job envOK dbWaiting 1 false).db 1 =
      some (some (envOK.outputFilesFor 1)) ∧
    (run_a_job envOK dbWaiting 1 false).events =
      [.changeStateEvt 1 JSAProcState.running
         (some JSAProcState.waiting) true,
       .pipelineRunEvt 1,
       .setOutputFilesEvt 1 (envOK.outputFilesFor 1),
       .changeStateEvt 1 JSAProcState.processed
         (some JSAProcState.running) true] :=
  success_path envOK dbWaiting 1 jWaiting "log.html"
    (by rfl) (by rfl) (by rfl) (by rfl)

/-- C6: (a) a transition with no expected prior state is unconditional —
it succeeds for any existing job regardless of its current state; (b) on
the path where no explicit job id is given, `run_job` behaves identically
for any `force` argument, because `force` is reset to `False`; (c) on that
path a selected job is run with `force = False`, so the claim asserts the
prior state `WAITING` — forced mode is never used by normal job
selection. -/
theorem forced_transition_and_normal_selection :
    (∀ (db : JSAProcDB) (job_id : Nat) (ns : JSAProcState) (msg : String)
        (j : Job), findJob db job_id = some j →
      change_state db job_id ns msg none =
        .ok (updateJob db job_id (applyTransition ns msg))) ∧
    (∀ (env : RunEnv) (db : JSAProcDB) (force : Bool),
      run_job env db none force = run_job env db none false) ∧
    (∀ (env : RunEnv) (db : JSAProcDB) (force : Bool) (j : Job)
        (rest : List Job),
      find_jobs db JSAProcState.waiting "JAC" true 1 = j :: rest →
      run_job env db none force =
        { run_a_job env db j.id false with
            result := none,
            records := (LogLevel.debug, "Looking for a job to run")
              :: (run_a_job env db j.id false).records }) := by
  refine ⟨?_, ?_, ?_⟩
  · intro db job_id ns msg j h
    exact change_state_forced db job_id ns msg j h
  · intro env db force
    rfl
  · intro env db force j rest h
    unfold run_job
    simp [jobIdFalsy, h]

/-- Witness for `forced_transition_and_normal_selection`: a forced
transition on a `PROCESSED` (not `WAITING`, not `RUNNING`) job succeeds; the
selection path ignores `force = true`; and the selected waiting job is run
with `force = False`. -/
theorem forced_transition_and_normal_selection_witness :
    change_state dbProcessed 1 JSAProcState.running "op" none =
      .ok (updateJob dbProcessed 1
        (applyTransition JSAProcState.running "op")) ∧
    run_job envOK dbWaiting none true = run_job envOK dbWaiting none false ∧
    run_job envOK dbWaiting none true =
      { run_a_job envOK dbWaiting 1 false with
          result := none,
          records := (LogLevel.debug, "Looking for a job to run")
            :: (run_a_job envOK dbWaiting 1 false).records } :=
  ⟨forced_transition_and_normal_selection.1 dbProcessed 1
      JSAProcState.running "op" jProcessed (by rfl),
   forced_transition_and_normal_selection.2.1 envOK dbWaiting true,
   forced_transition_and_normal_selection.2.2 envOK dbWaiting true
     jWaiting [] (by rfl)⟩

/-- C7: when no explicit job id is given and no `WAITING` job exists at
location `JAC`, `run_job` logs a warning and returns normally with the
store unchanged, no store events and no error — the empty selection is
"no work available", not a failure. -/
theorem no_work_is_not_an_error (env : RunEnv) (db : JSAProcDB)
    (force : Bool)
    (h : find_jobs db JSAProcState.waiting "JAC" true 1 = []) :
    run_job env db none force =
      ⟨db, none,
       [(LogLevel.debug, "Looking for a job to run"),
        (LogLevel.warning, "Did not find a job to run!")], []⟩ := by
  unfold run_job
  simp [jobIdFalsy, h]

/-- Witness for `no_work_is_not_an_error` on a store whose only job is
`PROCESSED`. -/
theorem no_work_is_not_an_error_witness :
    run_job envOK dbProcessed none true =
      ⟨dbProcessed, none,
       [(LogLevel.debug, "Looking for a job to run"),
        (LogLevel.warning, "Did not find a job to run!")], []⟩ :=
  no_work_is_not_an_error envOK dbProcessed true (by rfl)

/-- C8: the command-line driver of the reconciliation poller exits with
code 0 exactly when `poll_jac_jobs` returned true, and with code 1
otherwise. -/
theorem poller_driver_exit_code :
    state_machine_jac_exit true = 0 ∧ state_machine_jac_exit false = 1 := by
  constructor
  · rfl
  · rfl

/-- C9: the `/error_summary/` route passes the keyword arguments
`filtering`, `chosentask` and `extrafilter`, none of which
`prepare_error_summary(db)` accepts, so Python call binding fails and the
handler raises `TypeError` for every request — the route never returns a
summary. -/
theorem error_summary_route_always_fails :
    pythonCallOk prepare_error_summary_params 1 error_summary_call_kwargs
      = false ∧
    ∀ find_errors_logs, error_summary_route find_errors_logs =
      .error "TypeError: unexpected keyword argument" := by
  constructor
  · rfl
  · intro f
    rfl

/-- C10: `ingest_raw_observation` raises an error exactly when the obsid
lacks the `_YYYYMMDDT` date pattern, and then before any file-system side
effect; when the pattern is present (non-dry run), a non-zero exit of the
external `jsaraw` command is caught and logged at the error level, the
scratch directory is still deleted, and the function returns normally. -/
theorem raw_ingestion_contained (env : IngestEnv) (obsid : String) :
    (obsidDateSearch obsid = none →
      ingest_raw_observation env obsid false =
        .error ("Cannot find date in OBSID " ++ obsid, [])) ∧
    (∀ d : String, obsidDateSearch obsid = some d →
      ∃ evs recs, ingest_raw_observation env obsid false = .ok (evs, recs) ∧
        IngestEvent.removeScratchDir env.scratch_dir ∈ evs ∧
        (env.jsarawExit obsid ≠ 0 →
          (LogLevel.error, "Error during CAOM-2 ingestion") ∈ recs)) := by
  constructor
  · intro h
    unfold ingest_raw_observation
    rw [h]
  · intro d h
    unfold ingest_raw_observation
    rw [h]
    refine ⟨_, _, rfl, ?_, ?_⟩
    · simp [List.mem_append]
    · intro hne
      simp [hne]

/-- Witness for `raw_ingestion_contained`: an obsid without the date
pattern raises, and an obsid with the pattern under a failing `jsaraw`
(exit status 1) still completes, deleting the scratch directory and logging
the ingestion error. -/
theorem raw_ingestion_contained_witness :
    ingest_raw_observation ingestEnvFail "no-date-here" false =
      .error ("Cannot find date in OBSID " ++ "no-date-here", []) ∧
    (∃ evs recs, ingest_raw_observation ingestEnvFail
        "scuba2_00022_20140401T102030" false = .ok (evs, recs) ∧
      IngestEvent.removeScratchDir ingestEnvFail.scratch_dir ∈ evs ∧
      (ingestEnvFail.jsarawExit "scuba2_00022_20140401T102030" ≠ 0 →
        (LogLevel.error, "Error during CAOM-2 ingestion") ∈ recs)) :=
  ⟨(raw_ingestion_contained ingestEnvFail "no-date-here").1 (by rfl),
   (raw_ingestion_contained ingestEnvFail "scuba2_00022_20140401T102030").2
     "20140401" (by rfl)⟩

end JsaProc
